import Mathlib

/-!
Verification of the NDI-to-WebRTC bridge (src/NDI-webRTC.py) against its
natural-language specification.  The Python source is shallowly embedded:
pixel frames are nested lists of channel byte values, the asyncio queue is a
Lean list (front = oldest entry), wall-clock readings of time.time() are an
explicit rational parameter, and side-effecting steps are modelled by the
event sequences they emit.
-/

namespace NDI

/-- A decoded image: rows of columns of per-channel byte values
(numpy array of shape rows x cols x channels). -/
abbrev Img : Type := List (List (List Nat))

/-- The module-level names bound by the import statements of
src/NDI-webRTC.py (lines 17-25): the module imports sys, numpy as np,
logging, asyncio, NDIlib as ndi, web from aiohttp, three names from aiortc,
VideoFrame from av and Fraction from fractions.  The name time is not
among them, although the module docstring lists time as a required
library. -/
def moduleGlobals : List String :=
  ["sys", "np", "logging", "asyncio", "ndi", "web",
   "RTCPeerConnection", "RTCSessionDescription", "MediaStreamTrack",
   "VideoFrame", "Fraction"]

/-- The synthesized placeholder of NDIVideoTrack.recv, line 132:
np.zeros((480, 640, 3), dtype=np.uint8). -/
def blankImg : Img :=
  List.replicate 480 (List.replicate 640 (List.replicate 3 0))

/-- The drain loop of NDIVideoTrack.recv, lines 122-126: repeatedly
get_nowait() until QueueEmpty, storing each obtained frame into
self.last_frame.  The queue list has its oldest entry at the front, so the
loop leaves the newest entry (if any) in last_frame. -/
def drainLast : List Img → Option Img → Option Img
  | [], last => last
  | f :: rest, _ => drainLast rest (some f)

/-- Result of the frame-selection part of NDIVideoTrack.recv
(lines 120-132): the pixel data chosen for the outgoing frame, the new
value of self.last_frame, and the queue contents after the call. -/
structure RecvSel where
  frameData : Img
  lastFrame : Option Img
  queueAfter : List Img
  deriving DecidableEq

/-- Frame selection of NDIVideoTrack.recv, lines 120-132: drain the queue
into last_frame; if last_frame is set use it, otherwise synthesize the
zero-filled 480 x 640 x 3 frame.  The drain loop always empties the
queue. -/
def recvSelect (q : List Img) (last : Option Img) : RecvSel :=
  { frameData :=
      match drainLast q last with
      | some f => f
      | none => blankImg
    lastFrame := drainLast q last
    queueAfter := [] }

/-- Python int() applied to a real value: truncation toward zero. -/
def pyInt (x : ℚ) : Int :=
  if 0 ≤ x then Int.floor x else Int.ceil x

/-- Timestamp assignment of NDIVideoTrack.recv, line 137:
frame.pts = int(now * 90000), where now is the value returned by
time.time() (seconds since the Unix epoch). -/
def ptsOf (now : ℚ) : Int := pyInt (now * 90000)

/-- A Python-level runtime error raised during recv. -/
inductive PyError
  | nameError (nm : String)
  deriving DecidableEq

/-- The stamped frame built by NDIVideoTrack.recv, lines 135-138: pixel
data, presentation timestamp and time base Fraction(1, 90000). -/
structure StampedFrame where
  data : Img
  pts : Int
  timeBase : ℚ
  deriving DecidableEq

/-- NDIVideoTrack.recv, lines 120-140, as written in the source: select the
frame data, then evaluate now = time.time() (line 136).  The name time is
resolved against the module-level bindings; since the module never imports
time, this lookup fails and the call raises NameError before returning.
The parameter now is the value time.time() would have produced. -/
def recvCode (q : List Img) (last : Option Img) (now : ℚ) :
    Except PyError (StampedFrame × Option Img) :=
  let sel := recvSelect q last
  if moduleGlobals.contains "time" then
    Except.ok ({ data := sel.frameData, pts := ptsOf now, timeBase := 1 / 90000 },
      sel.lastFrame)
  else
    Except.error (PyError.nameError "time")

/-- NDIVideoTrack.recv, lines 120-140, with the name time bound (the module
docstring lists time among the required libraries, so this models the recv
body under the import the docstring prescribes; recvCode is the faithful
variant that raises NameError).  Returns the stamped frame and the new
last_frame. -/
def recvStamped (q : List Img) (last : Option Img) (now : ℚ) :
    StampedFrame × Option Img :=
  let sel := recvSelect q last
  ({ data := sel.frameData, pts := ptsOf now, timeBase := 1 / 90000 },
    sel.lastFrame)

/-- A sample one-pixel captured frame used in concrete scenarios. -/
def imgOne : Img := [[[1, 1, 1]]]

/-- Modelled from the spec: a presentation timestamp derived from
wall-clock elapsed time since session or process start, quantized to a
90 kHz clock rate — pts = int of (elapsed seconds times 90000), where
elapsed time is measured from the stated base. -/
def specPts (base now : ℚ) : Int := pyInt ((now - base) * 90000)

/-- Discovery loop of ndi_connect, lines 45-49: sources starts empty;
while it is empty, wait up to 5000 ms and poll the current source list
again.  discover k is the source list returned by the poll of iteration k;
fuel bounds how many iterations we observe.  Returns the loop result when
the loop exits within fuel iterations, and none while it is still
running. -/
def findSources (discover : Nat → List String) : Nat → Nat → Option (List String)
  | _, 0 => none
  | k, fuel + 1 =>
      if (discover k).isEmpty then findSources discover (k + 1) fuel
      else some (discover k)

/-- The maxsize of the frame queue created in main, line 247. -/
def QUEUE_MAXSIZE : Nat := 10

/-- The queue insert of ndi_receive_frames, lines 101-107: when the queue
is full, one get_nowait removes the oldest entry (the front), then put
appends the new frame at the back. -/
def pumpEnqueue (f : Img) (q : List Img) : List Img :=
  (if QUEUE_MAXSIZE ≤ q.length then q.tail else q) ++ [f]

/-- An await of frame_queue.put blocks exactly when the queue is full. -/
def putWouldBlock (q : List Img) : Prop := QUEUE_MAXSIZE ≤ q.length

/-- Removal of entry i along the channel axis of one pixel:
np.delete(frame, i, axis=2). -/
def deleteChannel (i : Nat) (px : List Nat) : List Nat :=
  px.take i ++ px.drop (i + 1)

/-- Lines 97-99 of ndi_receive_frames: frame_data = np.copy(v.data)
followed by np.delete(frame_data, 3, axis=2) — the copied pixel data with
the fourth (alpha) channel removed.  The copy is value-identical to the
captured data, so only the channel deletion is visible in the value. -/
def stripAlpha (img : Img) : Img :=
  img.map (fun row => row.map (deleteChannel 3))

/-- Observable steps of one iteration of ndi_receive_frames. -/
inductive PumpEvent
  | copyData
  | deleteAlpha
  | recvFreeVideo
  | queuePut
  | sleepRetry
  deriving DecidableEq

/-- One iteration of ndi_receive_frames, lines 93-110: on a captured video
frame, copy the vendor buffer, strip the alpha channel, free the vendor
frame, then insert into the queue; on an empty poll, sleep briefly and
retry.  cap is the captured pixel data when the poll returned video. -/
def ndi_receive_step (cap : Option Img) (q : List Img) :
    List Img × List PumpEvent :=
  match cap with
  | some v =>
      (pumpEnqueue (stripAlpha v) q,
        [PumpEvent.copyData, PumpEvent.deleteAlpha, PumpEvent.recvFreeVideo,
          PumpEvent.queuePut])
  | none => (q, [PumpEvent.sleepRetry])

/-- The value of self.last_frame after a sequence of recv calls on one
adapter, one call per observed queue content. -/
def recvRun : List (List Img) → Option Img → Option Img
  | [], last => last
  | q :: rest, last => recvRun rest (recvSelect q last).lastFrame

/-- Observable steps of cleanup, lines 222-238. -/
inductive CleanupEvent
  | recvDestroy
  | ndiDestroy
  | taskCancel
  | queueGet
  deriving DecidableEq

/-- cleanup, lines 222-238: destroy the NDI receiver handle, destroy the
NDI library context, cancel every task other than the current one (tasks
counts them; the ingestion pump is among them), then drain the queue with
one get_nowait per remaining entry. -/
def cleanup (tasks : Nat) (q : List Img) : List CleanupEvent :=
  [CleanupEvent.recvDestroy, CleanupEvent.ndiDestroy]
    ++ List.replicate tasks CleanupEvent.taskCancel
    ++ List.replicate q.length CleanupEvent.queueGet

/-- Phase number of a cleanup event, in the order the source performs
them. -/
def evOrder : CleanupEvent → Nat
  | CleanupEvent.recvDestroy => 0
  | CleanupEvent.ndiDestroy => 1
  | CleanupEvent.taskCancel => 2
  | CleanupEvent.queueGet => 3

/-- HTTP response produced by handle_offer. -/
inductive OfferResponse
  | clientError (status : Nat) (text : String)
  | answer (status : Nat) (sdp : String) (typ : String)
  deriving DecidableEq

/-- Result of one handle_offer call: the response, together with whether an
RTCPeerConnection and an NDIVideoTrack were constructed during the call. -/
structure OfferOutcome where
  response : OfferResponse
  pcCreated : Bool
  trackCreated : Bool
  deriving DecidableEq

/-- Lookup of a key in the parsed JSON body (an association list). -/
def lookupKey (k : String) (params : List (String × String)) : Option String :=
  (params.find? (fun p => p.1 == k)).map (fun p => p.2)

/-- handle_offer, lines 142-172: if the body lacks sdp or type, return 400
with the text Invalid SDP before any session object is constructed;
otherwise construct the peer connection and the track and return 200 with
the local description, which the transport engine (parameter createAnswer)
computes from the remote sdp and type. -/
def handle_offer (createAnswer : String → String → String × String)
    (params : List (String × String)) : OfferOutcome :=
  match lookupKey "sdp" params, lookupKey "type" params with
  | some s, some t =>
      { response := OfferResponse.answer 200 (createAnswer s t).1 (createAnswer s t).2
        pcCreated := true
        trackCreated := true }
  | _, _ =>
      { response := OfferResponse.clientError 400 "Invalid SDP"
        pcCreated := false
        trackCreated := false }

end NDI

namespace NDI

/-- Truncation toward zero is monotone. -/
theorem pyInt_mono {x y : ℚ} (h : x ≤ y) : pyInt x ≤ pyInt y := by
  unfold pyInt
  by_cases hx : 0 ≤ x
  · have hy : 0 ≤ y := le_trans hx h
    simp only [if_pos hx, if_pos hy]
    exact Int.floor_le_floor h
  · by_cases hy : 0 ≤ y
    · simp only [if_neg hx, if_pos hy]
      have h1 : Int.ceil x ≤ 0 := Int.ceil_le.mpr (by exact_mod_cast le_of_not_le hx)
      have h2 : (0 : ℤ) ≤ Int.floor y := Int.floor_nonneg.mpr hy
      omega
    · simp only [if_neg hx, if_neg hy]
      exact Int.ceil_le_ceil h

/-- Evaluation rule for truncation of a nonnegative rational. -/
theorem pyInt_eq_of_bounds (x : ℚ) (n : ℤ) (h0 : 0 ≤ x) (h1 : (n : ℚ) ≤ x)
    (h2 : x < n + 1) : pyInt x = n := by
  unfold pyInt
  rw [if_pos h0]
  exact Int.floor_eq_iff.mpr ⟨h1, h2⟩

/-- The frame data chosen by recv is the drained last_frame when one is
set, and the blank frame otherwise. -/
theorem recvSelect_frameData (q : List Img) (l : Option Img) :
    (recvSelect q l).frameData = (drainLast q l).getD blankImg := by
  cases h : drainLast q l <;> simp [recvSelect, h]

/-- Draining a queue whose most recently inserted entry is f yields f. -/
theorem drainLast_append_last (q : List Img) (l : Option Img) (f : Img) :
    drainLast (q ++ [f]) l = some f := by
  induction q generalizing l with
  | nil => rfl
  | cons a t ih => exact ih (some a)

/-- Draining never clears a set last_frame. -/
theorem drainLast_some_isSome (q : List Img) (g : Img) :
    (drainLast q (some g)).isSome = true := by
  induction q generalizing g with
  | nil => rfl
  | cons a t ih => exact ih a

/-- The drain result is empty only when the queue was empty and no frame
was ever stored. -/
theorem drainLast_eq_none (q : List Img) (l : Option Img)
    (h : drainLast q l = none) : l = none ∧ q = [] := by
  cases q with
  | nil => exact ⟨h, rfl⟩
  | cons a t =>
      exfalso
      have hs := drainLast_some_isSome t a
      rw [show drainLast (a :: t) l = drainLast t (some a) from rfl] at h
      rw [h] at hs
      simp at hs

/-- A set last_frame persists through any sequence of recv calls. -/
theorem recvRun_isSome (qs : List (List Img)) (g : Img) :
    (recvRun qs (some g)).isSome = true := by
  induction qs generalizing g with
  | nil => rfl
  | cons q rest ih =>
      show (recvRun rest (recvSelect q (some g)).lastFrame).isSome = true
      have hs := drainLast_some_isSome q g
      rcases ho : drainLast q (some g) with _ | f
      · rw [ho] at hs; simp at hs
      · have hl : (recvSelect q (some g)).lastFrame = some f := by
          rw [show (recvSelect q (some g)).lastFrame = drainLast q (some g) from rfl, ho]
        rw [hl]
        exact ih f

/-- The discovery loop makes no progress while every poll is empty. -/
theorem findSources_allEmpty (fuel : Nat) :
    ∀ k, findSources (fun _ => ([] : List String)) k fuel = none := by
  induction fuel with
  | zero => intro k; rfl
  | succ n ih => intro k; simpa [findSources] using ih (k + 1)

/-- A single pump insert keeps the queue within its capacity. -/
theorem pumpEnqueue_length_le (f : Img) (q : List Img)
    (h : q.length ≤ QUEUE_MAXSIZE) :
    (pumpEnqueue f q).length ≤ QUEUE_MAXSIZE := by
  unfold pumpEnqueue QUEUE_MAXSIZE at *
  by_cases h10 : 10 ≤ q.length
  · simp [h10, List.length_tail]
    omega
  · simp [h10]
    omega

end NDI

namespace NDI

/-- Claim C1: before any frame has ever been placed in the queue, a call to
NDIVideoTrack.recv does not raise and returns the zero-filled
480 x 640 x 3 blank frame.  What the code actually does at that input: the
frame-selection step does compute the zero-filled 480 x 640 x 3 blank
frame, but the call then raises NameError, because the name time used at
line 136 is not among the module bindings. -/
theorem C1_recv_first_call_raises :
    recvCode [] none 1 = Except.error (PyError.nameError "time") ∧
    (recvSelect [] none).frameData
      = List.replicate 480 (List.replicate 640 (List.replicate 3 0)) ∧
    moduleGlobals.contains "time" = false := by
  refine ⟨rfl, rfl, rfl⟩

/-- Claim C2 as stated is false: two successive recv calls on the same
adapter whose wall-clock samples lie inside the same 90 kHz tick receive
equal presentation timestamps, even though the clock strictly advanced, so
the timestamps are not strictly increasing. -/
theorem C2_counterexample :
    (1 : ℚ) < 1 + 1 / 180000 ∧
    (recvStamped [] none 1).1.pts = 90000 ∧
    (recvStamped [] (recvStamped [] none 1).2 (1 + 1 / 180000)).1.pts = 90000 := by
  refine ⟨by norm_num, ?_, ?_⟩
  · show pyInt ((1 : ℚ) * 90000) = 90000
    exact pyInt_eq_of_bounds _ _ (by norm_num) (by norm_num) (by norm_num)
  · show pyInt (((1 : ℚ) + 1 / 180000) * 90000) = 90000
    exact pyInt_eq_of_bounds _ _ (by norm_num) (by norm_num) (by norm_num)

/-- Claim C2 amended: across successive recv calls on one adapter, the
presentation timestamps are monotonically non-decreasing whenever the
sampled wall-clock values are non-decreasing (pts is int of now times
90000, and truncation is monotone); strict increase is not guaranteed. -/
theorem C2_pts_nondecreasing (q1 q2 : List Img) (l : Option Img) (n1 n2 : ℚ)
    (h : n1 ≤ n2) :
    (recvStamped q1 l n1).1.pts
      ≤ (recvStamped q2 (recvStamped q1 l n1).2 n2).1.pts := by
  simp only [recvStamped, ptsOf]
  exact pyInt_mono (mul_le_mul_of_nonneg_right h (by norm_num))

/-- Witness for C2 amended: two concrete calls one second apart. -/
theorem C2_witness :
    (recvStamped [] none 1).1.pts
      ≤ (recvStamped [] (recvStamped [] none 1).2 2).1.pts :=
  C2_pts_nondecreasing [] [] none 1 2 (by norm_num)

/-- Claim C3 as stated is false: with the session (and process) having
started at wall-clock second 1 and recv called at wall-clock second 2, the
code assigns pts 180000 (quantizing absolute epoch time), while a
timestamp measured from the stated base would be 90000. -/
theorem C3_counterexample :
    (recvStamped [] none 2).1.pts = 180000 ∧
    specPts 1 2 = 90000 ∧
    (180000 : ℤ) ≠ 90000 := by
  refine ⟨?_, ?_, by decide⟩
  · show pyInt ((2 : ℚ) * 90000) = 180000
    exact pyInt_eq_of_bounds _ _ (by norm_num) (by norm_num) (by norm_num)
  · show pyInt (((2 : ℚ) - 1) * 90000) = 90000
    exact pyInt_eq_of_bounds _ _ (by norm_num) (by norm_num) (by norm_num)

/-- Claim C3 amended: every frame returned by recv carries
pts = int of (now times 90000) where now is the absolute wall-clock
reading of time.time(), i.e. elapsed time since the Unix epoch (base 0),
not since session or process start, with time base 1/90000. -/
theorem C3_pts_base_is_epoch (q : List Img) (l : Option Img) (now : ℚ) :
    (recvStamped q l now).1.pts = specPts 0 now ∧
    (recvStamped q l now).1.timeBase = 1 / 90000 := by
  constructor
  · simp [recvStamped, ptsOf, specPts]
  · rfl

/-- Claim C4 as stated is false: when discovery keeps returning an empty
source list, ndi_connect does not terminate with an error — its discovery
loop never exits, no matter how many iterations are observed. -/
theorem C4_counterexample :
    ¬ ∃ fuel : Nat,
      (findSources (fun _ => ([] : List String)) 0 fuel).isSome = true := by
  rintro ⟨fuel, h⟩
  rw [findSources_allEmpty fuel 0] at h
  simp at h

/-- Claim C4 amended: the discovery loop of ndi_connect polls in rounds of
bounded (5 s) waits and exits only when a poll advertises at least one
source, so the source list it returns is never empty and the
no-sources-found error after the loop is unreachable; with discovery
forever empty the loop polls forever instead of failing. -/
theorem C4_loop_exits_only_nonempty (discover : Nat → List String)
    (k fuel : Nat) (s : List String)
    (h : findSources discover k fuel = some s) : s ≠ [] := by
  induction fuel generalizing k with
  | zero => simp [findSources] at h
  | succ n ih =>
      by_cases he : (discover k).isEmpty
      · rw [show findSources discover k (n + 1)
            = findSources discover (k + 1) n from by simp [findSources, he]] at h
        exact ih (k + 1) h
      · rw [show findSources discover k (n + 1) = some (discover k) from by
            simp [findSources, he]] at h
        injection h with h2
        subst h2
        intro hnil
        rw [hnil] at he
        simp at he

/-- Witness for C4 amended: a discovery that advertises a source on its
first poll exits the loop with that nonempty list. -/
theorem C4_witness : (["srcA"] : List String) ≠ [] :=
  C4_loop_exits_only_nonempty (fun _ => ["srcA"]) 0 1 ["srcA"] rfl

/-- Claim C5 as stated is false: with one captured frame in the shared
queue, the first adapter to call recv receives it and empties the queue;
the second adapter, calling recv afterwards with no frame of its own,
receives the synthesized blank frame instead of the captured frame it
would have received had the first adapter not read. -/
theorem C5_counterexample :
    (recvSelect [imgOne] none).frameData = imgOne ∧
    (recvSelect [imgOne] none).queueAfter = [] ∧
    (recvSelect (recvSelect [imgOne] none).queueAfter none).frameData = blankImg ∧
    imgOne ≠ blankImg := by
  refine ⟨rfl, rfl, rfl, ?_⟩
  intro h
  have hl := congrArg List.length h
  simp only [imgOne, blankImg, List.length_replicate, List.length_cons,
    List.length_nil] at hl
  omega

/-- Claim C5 amended: all sessions share one queue that each recv drains
destructively.  The reading adapter does obtain the most recently inserted
frame, but it empties the shared queue, so a recv by another adapter
immediately afterwards gains nothing from the queue: its last_frame stays
whatever it was and its output falls back to that stored frame or to the
blank frame.  One adapter's reads therefore do affect the frames delivered
to the other. -/
theorem C5_shared_queue_interference (q : List Img) (f : Img)
    (lA lB : Option Img) :
    (recvSelect (q ++ [f]) lA).frameData = f ∧
    (recvSelect (q ++ [f]) lA).queueAfter = [] ∧
    (recvSelect (recvSelect (q ++ [f]) lA).queueAfter lB).lastFrame = lB ∧
    (recvSelect (recvSelect (q ++ [f]) lA).queueAfter lB).frameData
      = lB.getD blankImg := by
  refine ⟨?_, rfl, rfl, ?_⟩
  · rw [recvSelect_frameData, drainLast_append_last]
    rfl
  · exact recvSelect_frameData [] lB

/-- Claim C6: the frame queue is bounded at capacity 10, no sequence of
pump inserts grows it beyond that bound, a full queue has its oldest
(front) entry removed before the newest frame is appended, and the put
issued by the pump is never performed on a full queue, so the producer
never blocks. -/
theorem C6_queue_bounded (f : Img) (fs : List Img) (q : List Img)
    (h : q.length ≤ QUEUE_MAXSIZE) :
    (pumpEnqueue f q).length ≤ QUEUE_MAXSIZE ∧
    (fs.foldl (fun acc g => pumpEnqueue g acc) q).length ≤ QUEUE_MAXSIZE ∧
    (q.length = QUEUE_MAXSIZE → pumpEnqueue f q = q.tail ++ [f]) ∧
    ¬ putWouldBlock (if QUEUE_MAXSIZE ≤ q.length then q.tail else q) := by
  refine ⟨pumpEnqueue_length_le f q h, ?_, ?_, ?_⟩
  · induction fs generalizing q with
    | nil => exact h
    | cons g rest ih =>
        exact ih (pumpEnqueue g q) (pumpEnqueue_length_le g q h)
  · intro h10
    unfold pumpEnqueue
    rw [if_pos (le_of_eq h10.symm)]
  · unfold putWouldBlock
    by_cases h10 : QUEUE_MAXSIZE ≤ q.length
    · rw [if_pos h10]
      have : q.length = QUEUE_MAXSIZE := le_antisymm h h10
      simp [List.length_tail, this]
      unfold QUEUE_MAXSIZE
      omega
    · rw [if_neg h10]
      exact h10

/-- Witness for C6: a full queue of ten frames, followed by twelve more
inserts. -/
theorem C6_witness :
    (pumpEnqueue imgOne (List.replicate 10 imgOne)).length ≤ QUEUE_MAXSIZE ∧
    ((List.replicate 12 imgOne).foldl (fun acc g => pumpEnqueue g acc)
      (List.replicate 10 imgOne)).length ≤ QUEUE_MAXSIZE ∧
    ((List.replicate 10 imgOne).length = QUEUE_MAXSIZE →
      pumpEnqueue imgOne (List.replicate 10 imgOne)
        = (List.replicate 10 imgOne).tail ++ [imgOne]) ∧
    ¬ putWouldBlock (if QUEUE_MAXSIZE ≤ (List.replicate 10 imgOne).length
        then (List.replicate 10 imgOne).tail else List.replicate 10 imgOne) :=
  C6_queue_bounded imgOne (List.replicate 12 imgOne) (List.replicate 10 imgOne)
    (by simp [QUEUE_MAXSIZE])

/-- Claim C7: a POST /offer body missing the sdp key or the type key gets
a 400 response with a human-readable body and no session object is
constructed; a body carrying both keys proceeds through negotiation and,
on success, gets a 200 response whose body is the negotiated local
description. -/
theorem C7_offer_validation (createAnswer : String → String → String × String)
    (params : List (String × String)) :
    ((lookupKey "sdp" params = none ∨ lookupKey "type" params = none) →
      handle_offer createAnswer params =
        { response := OfferResponse.clientError 400 "Invalid SDP"
          pcCreated := false
          trackCreated := false }) ∧
    (∀ s t, lookupKey "sdp" params = some s → lookupKey "type" params = some t →
      handle_offer createAnswer params =
        { response :=
            OfferResponse.answer 200 (createAnswer s t).1 (createAnswer s t).2
          pcCreated := true
          trackCreated := true }) := by
  constructor
  · rintro (h | h)
    · simp [handle_offer, h]
    · cases hs : lookupKey "sdp" params <;> simp [handle_offer, hs, h]
  · intro s t hs ht
    simp [handle_offer, hs, ht]

/-- Witness for C7: one well-formed body and one body missing sdp. -/
theorem C7_witness :
    handle_offer (fun _ _ => ("localSdp", "answer"))
        [("sdp", "o"), ("type", "offer")] =
      { response := OfferResponse.answer 200 "localSdp" "answer"
        pcCreated := true
        trackCreated := true } ∧
    handle_offer (fun _ _ => ("localSdp", "answer")) [("type", "offer")] =
      { response := OfferResponse.clientError 400 "Invalid SDP"
        pcCreated := false
        trackCreated := false } := by
  constructor
  · exact (C7_offer_validation (fun _ _ => ("localSdp", "answer"))
      [("sdp", "o"), ("type", "offer")]).2 "o" "offer" rfl rfl
  · exact (C7_offer_validation (fun _ _ => ("localSdp", "answer"))
      [("type", "offer")]).1 (Or.inl rfl)

/-- Claim C8 as stated is false: in the teardown sequence with one
background task and one cached frame, the first pump cancellation happens
at position 2 of the event list, after the receiver handle release at
position 0, so the cancel-then-release order the claim requires does not
hold. -/
theorem C8_counterexample :
    cleanup 1 [imgOne] =
      [CleanupEvent.recvDestroy, CleanupEvent.ndiDestroy,
        CleanupEvent.taskCancel, CleanupEvent.queueGet] ∧
    (cleanup 1 [imgOne]).findIdx (fun e => e == CleanupEvent.taskCancel) = 2 ∧
    (cleanup 1 [imgOne]).findIdx (fun e => e == CleanupEvent.recvDestroy) = 0 ∧
    ¬ (2 : Nat) < 0 := by
  refine ⟨rfl, by decide, by decide, by decide⟩

/-- Claim C8 amended: the teardown sequence releases the Source handle
first (recv_destroy, then the library context), then cancels the
background tasks including the Ingestion Pump, and drains the Frame Cache
last — so the producer is cancelled before the cache is drained, and the
handle is released exactly once, but the handle release precedes rather
than follows the pump cancellation. -/
theorem C8_cleanup_order (tasks : Nat) (q : List Img) :
    (cleanup tasks q).count CleanupEvent.recvDestroy = 1 ∧
    List.Pairwise (fun a b => evOrder a ≤ evOrder b) (cleanup tasks q) := by
  constructor
  · simp [cleanup, List.count_append, List.count_replicate, List.count_cons]
  · unfold cleanup
    have hle3 : ∀ a : CleanupEvent, evOrder a ≤ 3 := by
      intro a; cases a <;> simp [evOrder]
    rw [List.pairwise_append]
    refine ⟨?_, ?_, ?_⟩
    · rw [List.pairwise_append]
      refine ⟨by simp [evOrder], List.pairwise_replicate.mpr (Or.inr le_rfl), ?_⟩
      intro a ha b hb
      rw [List.eq_of_mem_replicate hb]
      have ha2 : a = CleanupEvent.recvDestroy ∨ a = CleanupEvent.ndiDestroy := by
        simpa using ha
      rcases ha2 with rfl | rfl <;> simp [evOrder]
    · exact List.pairwise_replicate.mpr (Or.inr le_rfl)
    · intro a ha b hb
      rw [List.eq_of_mem_replicate hb]
      exact hle3 a

/-- Deleting channel 3 of a four-channel pixel keeps the first three
channels. -/
theorem deleteChannel_len4 (px : List Nat) (h : px.length = 4) :
    deleteChannel 3 px = px.take 3 := by
  unfold deleteChannel
  rw [List.drop_eq_nil_of_le (by omega), List.append_nil]

/-- Claim C9: for every captured video frame (four channels per pixel),
one pump iteration writes into the queue the frame whose pixel data is the
captured data with the fourth (alpha) channel removed — every pixel keeps
exactly its first three channel values — and the iteration performs the
buffer copy and the channel deletion before releasing the vendor frame and
inserting into the queue. -/
theorem C9_pump_normalizes (v : Img) (q : List Img)
    (h4 : ∀ row ∈ v, ∀ px ∈ row, px.length = 4) :
    stripAlpha v = v.map (fun row => row.map (fun px => px.take 3)) ∧
    (∀ row ∈ stripAlpha v, ∀ px ∈ row, px.length = 3) ∧
    (ndi_receive_step (some v) q).1 = pumpEnqueue (stripAlpha v) q ∧
    (ndi_receive_step (some v) q).2 =
      [PumpEvent.copyData, PumpEvent.deleteAlpha, PumpEvent.recvFreeVideo,
        PumpEvent.queuePut] := by
  have hmap : stripAlpha v = v.map (fun row => row.map (fun px => px.take 3)) := by
    unfold stripAlpha
    apply List.map_congr_left
    intro row hrow
    apply List.map_congr_left
    intro px hpx
    exact deleteChannel_len4 px (h4 row hrow px hpx)
  refine ⟨hmap, ?_, rfl, rfl⟩
  intro row hrow px hpx
  rw [hmap] at hrow
  rcases List.mem_map.mp hrow with ⟨row0, hrow0, rfl⟩
  rcases List.mem_map.mp hpx with ⟨px0, hpx0, rfl⟩
  rw [List.length_take, h4 row0 hrow0 px0 hpx0]
  decide

/-- Witness for C9: a one-pixel BGRA frame. -/
theorem C9_witness :
    stripAlpha [[[10, 20, 30, 40]]] =
      ([[[10, 20, 30, 40]]] : Img).map (fun row => row.map (fun px => px.take 3)) ∧
    (∀ row ∈ stripAlpha [[[10, 20, 30, 40]]], ∀ px ∈ row, px.length = 3) ∧
    (ndi_receive_step (some [[[10, 20, 30, 40]]]) []).1
      = pumpEnqueue (stripAlpha [[[10, 20, 30, 40]]]) [] ∧
    (ndi_receive_step (some [[[10, 20, 30, 40]]]) []).2
      = [PumpEvent.copyData, PumpEvent.deleteAlpha, PumpEvent.recvFreeVideo,
          PumpEvent.queuePut] :=
  C9_pump_normalizes [[[10, 20, 30, 40]]] [] (by decide)

/-- Claim C10: once the adapter holds a real frame in last_frame, no later
recv call takes the blank-synthesis branch: after any further sequence of
calls last_frame stays set, the frame data returned always comes from the
drained last_frame, an empty-queue call re-emits the stored frame, and
last_frame can be none only at construction (it becomes none again only in
the degenerate case where it already was none and the queue stayed
empty). -/
theorem C10_no_blank_after_real (qs : List (List Img)) (q : List Img) (g : Img)
    (last : Option Img) :
    (recvRun qs (some g)).isSome = true ∧
    (∃ f, drainLast q (some g) = some f ∧ (recvSelect q (some g)).frameData = f) ∧
    (q = [] → (recvSelect q (some g)).frameData = g) ∧
    ((recvSelect q last).lastFrame = none → last = none ∧ q = []) := by
  refine ⟨recvRun_isSome qs g, ?_, ?_, ?_⟩
  · rcases ho : drainLast q (some g) with _ | f
    · have hs := drainLast_some_isSome q g
      rw [ho] at hs
      simp at hs
    · refine ⟨f, rfl, ?_⟩
      rw [recvSelect_frameData, ho]
      rfl
  · intro hq
    subst hq
    rfl
  · intro h
    exact drainLast_eq_none q last h

/-- Witness for C10: an adapter that stored a real frame, observed over
two further calls, and a freshly constructed adapter. -/
theorem C10_witness :
    (recvRun [[], [imgOne]] (some imgOne)).isSome = true ∧
    (∃ f, drainLast [] (some imgOne) = some f ∧
      (recvSelect [] (some imgOne)).frameData = f) ∧
    (([] : List Img) = [] → (recvSelect [] (some imgOne)).frameData = imgOne) ∧
    ((recvSelect [] (none : Option Img)).lastFrame = none →
      (none : Option Img) = none ∧ ([] : List Img) = []) :=
  C10_no_blank_after_real [[], [imgOne]] [] imgOne none

end NDI
